import Mathlib

/-!
Verification of the rokot-ble-midi BLE-MIDI protocol core.

Shallow embedding of `rokot_ble_midi.c` (the variant with Battery and
Device Information service support). Global mutable state becomes an
explicit `BleMidiState` record threaded through the operations; the
BTstack notification transport (`att_server_can_send_packet_now`,
`att_server_notify`) becomes an explicit `Transport` environment, and
every call to `att_server_notify` is recorded as a `(handle, payload)`
pair in the returned list. The registered receive callback is modelled
as a flag plus the list of `(status, data1, data2)` invocations an
inbound write produces. Fields of the C state struct that no modelled
operation touches (device name, manufacturer and firmware strings, the
HCI callback registration, the initialized flag) are omitted.
-/

/-- Invalid HCI connection handle sentinel, as defined by BTstack (0xFFFF). -/
def HCI_CON_HANDLE_INVALID : Nat := 0xFFFF

/-- Value a central writes into a CCCD to enable notifications
(BTstack constant, 0x0001). -/
def GATT_CLIENT_CHARACTERISTICS_CONFIGURATION_NOTIFICATION : Nat := 1

/-- Value handle of the BLE-MIDI data characteristic. Handle values come
from the generated GATT database (`rokot_ble_midi_service.h`, not among
the sources); the dispatch logic only compares handles for equality, so
only distinctness of these four constants matters. -/
def ATT_CHARACTERISTIC_7772E5DB_3868_4112_A1A9_F2669D106BF3_01_VALUE_HANDLE : Nat := 10

/-- Client characteristic configuration descriptor handle of the BLE-MIDI
data characteristic. -/
def ATT_CHARACTERISTIC_7772E5DB_3868_4112_A1A9_F2669D106BF3_01_CLIENT_CONFIGURATION_HANDLE : Nat := 11

/-- Value handle of the Battery Level characteristic. -/
def ATT_CHARACTERISTIC_ORG_BLUETOOTH_CHARACTERISTIC_BATTERY_LEVEL_01_VALUE_HANDLE : Nat := 13

/-- Client characteristic configuration descriptor handle of the Battery
Level characteristic. -/
def ATT_CHARACTERISTIC_ORG_BLUETOOTH_CHARACTERISTIC_BATTERY_LEVEL_01_CLIENT_CONFIGURATION_HANDLE : Nat := 14

/-- MIDI status byte constants from `rokot_ble_midi.h`. -/
def MIDI_NOTE_OFF : Nat := 0x80

/-- MIDI Note On status byte. -/
def MIDI_NOTE_ON : Nat := 0x90

/-- MIDI Control Change status byte. -/
def MIDI_CONTROL_CHANGE : Nat := 0xB0

/-- MIDI Program Change status byte. -/
def MIDI_PROGRAM_CHANGE : Nat := 0xC0

/-- MIDI Channel Pressure status byte. -/
def MIDI_CHANNEL_PRESSURE : Nat := 0xD0

/-- MIDI Pitch Bend status byte. -/
def MIDI_PITCH_BEND : Nat := 0xE0

/-- The library state: the fields of the C `ble_midi_state` struct that the
modelled operations read or write. `con_handle` is the uint16 connection
handle, `rx_callback` records whether a receive callback is registered. -/
structure BleMidiState where
  con_handle : Nat
  notifications_enabled : Bool
  battery_notifications_enabled : Bool
  connection_interval : Nat
  rx_callback : Bool
  battery_level : Nat
deriving DecidableEq

/-- Initial value of `ble_midi_state` from its C initializer. -/
def ble_midi_state_init : BleMidiState :=
  { con_handle := HCI_CON_HANDLE_INVALID
  , notifications_enabled := false
  , battery_notifications_enabled := false
  , connection_interval := 0
  , rx_callback := false
  , battery_level := 100 }

/-- Environment supplied by the notification transport collaborator:
whether `att_server_can_send_packet_now` would return true, and the
result `att_server_notify` would return. -/
structure Transport where
  canSendNow : Bool
  notifyResult : Int
deriving DecidableEq

/-- Record of one `att_server_notify` call: attribute handle and payload. -/
abbrev NotifyCall := Nat × List Nat

/-- Embedding of `encode_ble_midi_packet`: the packet is the fixed
two-byte header and timestamp pair (both 0x80) followed by the MIDI
bytes; the C function returns `midi_len + 2`, here the list length. -/
def encode_ble_midi_packet (midi : List Nat) : List Nat :=
  0x80 :: 0x80 :: midi

/-- Embedding of BTstack `little_endian_read_16` on a byte buffer. -/
def little_endian_read_16 (buffer : List Nat) (pos : Nat) : Nat :=
  buffer.getD pos 0 + 256 * buffer.getD (pos + 1) 0

/-- Embedding of `send_midi_internal`. The C function never writes the
state struct, so the state is returned unchanged; the `Int` is its return
code and the list records the `att_server_notify` calls made. -/
def send_midi_internal (s : BleMidiState) (tr : Transport) (midi : List Nat) :
    BleMidiState × Int × List NotifyCall :=
  if !s.notifications_enabled || (s.con_handle == HCI_CON_HANDLE_INVALID) then
    (s, -1, [])
  else if !tr.canSendNow then
    (s, -2, [])
  else
    (s, if tr.notifyResult = 0 then 0 else -3,
     [(ATT_CHARACTERISTIC_7772E5DB_3868_4112_A1A9_F2669D106BF3_01_VALUE_HANDLE,
       encode_ble_midi_packet midi)])

/-- Embedding of `att_write_callback`: dispatch on the attribute handle.
Returns the updated state, the list of receive-callback invocations
`(status, data1, data2)` performed, and the ATT result code. -/
def att_write_callback (s : BleMidiState) (connection_handle : Nat)
    (att_handle : Nat) (buffer : List Nat) :
    BleMidiState × List (Nat × Nat × Nat) × Int :=
  if att_handle = ATT_CHARACTERISTIC_ORG_BLUETOOTH_CHARACTERISTIC_BATTERY_LEVEL_01_CLIENT_CONFIGURATION_HANDLE then
    ({ s with
        battery_notifications_enabled :=
          little_endian_read_16 buffer 0 ==
            GATT_CLIENT_CHARACTERISTICS_CONFIGURATION_NOTIFICATION
      , con_handle := connection_handle }, [], 0)
  else if att_handle = ATT_CHARACTERISTIC_7772E5DB_3868_4112_A1A9_F2669D106BF3_01_CLIENT_CONFIGURATION_HANDLE then
    ({ s with
        notifications_enabled :=
          little_endian_read_16 buffer 0 ==
            GATT_CLIENT_CHARACTERISTICS_CONFIGURATION_NOTIFICATION
      , con_handle := connection_handle }, [], 0)
  else if att_handle = ATT_CHARACTERISTIC_7772E5DB_3868_4112_A1A9_F2669D106BF3_01_VALUE_HANDLE then
    (s,
     if 2 < buffer.length ∧ s.rx_callback = true then
       if 5 ≤ buffer.length then
         [(buffer.getD 2 0, buffer.getD 3 0, buffer.getD 4 0)]
       else if 4 ≤ buffer.length then
         [(buffer.getD 2 0, buffer.getD 3 0, 0)]
       else []
     else [], 0)
  else
    (s, [], 0)

/-- Embedding of the `HCI_SUBEVENT_LE_CONNECTION_COMPLETE` arm of
`packet_handler`: record the new connection handle and interval (the
`gap_request_connection_parameter_update` call is an external effect). -/
def hci_le_connection_complete (s : BleMidiState) (handle interval : Nat) :
    BleMidiState :=
  { s with con_handle := handle, connection_interval := interval }

/-- Embedding of the `HCI_SUBEVENT_LE_CONNECTION_UPDATE_COMPLETE` arm of
`packet_handler`: the interval updates in place. -/
def hci_le_connection_update_complete (s : BleMidiState) (interval : Nat) :
    BleMidiState :=
  { s with connection_interval := interval }

/-- Embedding of the `HCI_EVENT_DISCONNECTION_COMPLETE` arm of
`packet_handler`: one step clears the connection handle, both
notification gates and the recorded connection interval. -/
def hci_disconnection_complete (s : BleMidiState) : BleMidiState :=
  { s with
      con_handle := HCI_CON_HANDLE_INVALID
    , notifications_enabled := false
    , battery_notifications_enabled := false
    , connection_interval := 0 }

/-- The public connection-state enum `rokot_ble_midi_state_t`. -/
inductive rokot_ble_midi_state_t where
  | ROKOT_BLE_MIDI_DISCONNECTED
  | ROKOT_BLE_MIDI_CONNECTED
  | ROKOT_BLE_MIDI_READY
deriving DecidableEq

export rokot_ble_midi_state_t (ROKOT_BLE_MIDI_DISCONNECTED ROKOT_BLE_MIDI_CONNECTED ROKOT_BLE_MIDI_READY)

/-- Embedding of `rokot_ble_midi_get_state`: READY whenever the MIDI
notification gate is set (the connection handle is not consulted in that
branch), else CONNECTED when a handle is present, else DISCONNECTED. -/
def rokot_ble_midi_get_state (s : BleMidiState) : rokot_ble_midi_state_t :=
  if s.notifications_enabled then ROKOT_BLE_MIDI_READY
  else if s.con_handle ≠ HCI_CON_HANDLE_INVALID then ROKOT_BLE_MIDI_CONNECTED
  else ROKOT_BLE_MIDI_DISCONNECTED

/-- Embedding of `rokot_ble_midi_is_ready`. -/
def rokot_ble_midi_is_ready (s : BleMidiState) : Bool :=
  s.notifications_enabled && (s.con_handle != HCI_CON_HANDLE_INVALID)

/-- Embedding of `rokot_ble_midi_is_connected`. -/
def rokot_ble_midi_is_connected (s : BleMidiState) : Bool :=
  s.con_handle != HCI_CON_HANDLE_INVALID

/-- MIDI message built by `rokot_ble_midi_note_on`. The uint8 arguments
are modelled as `Nat`; the masks are those of the source. -/
def note_on_midi (channel note velocity : Nat) : List Nat :=
  [MIDI_NOTE_ON ||| (channel &&& 0x0F), note &&& 0x7F, velocity &&& 0x7F]

/-- Embedding of `rokot_ble_midi_note_on`. -/
def rokot_ble_midi_note_on (s : BleMidiState) (tr : Transport)
    (channel note velocity : Nat) : BleMidiState × Int × List NotifyCall :=
  send_midi_internal s tr (note_on_midi channel note velocity)

/-- MIDI message built by `rokot_ble_midi_note_off`. -/
def note_off_midi (channel note : Nat) : List Nat :=
  [MIDI_NOTE_OFF ||| (channel &&& 0x0F), note &&& 0x7F, 0]

/-- Embedding of `rokot_ble_midi_note_off`. -/
def rokot_ble_midi_note_off (s : BleMidiState) (tr : Transport)
    (channel note : Nat) : BleMidiState × Int × List NotifyCall :=
  send_midi_internal s tr (note_off_midi channel note)

/-- MIDI message built by `rokot_ble_midi_control_change`. -/
def control_change_midi (channel controller value : Nat) : List Nat :=
  [MIDI_CONTROL_CHANGE ||| (channel &&& 0x0F), controller &&& 0x7F, value &&& 0x7F]

/-- Embedding of `rokot_ble_midi_control_change`. -/
def rokot_ble_midi_control_change (s : BleMidiState) (tr : Transport)
    (channel controller value : Nat) : BleMidiState × Int × List NotifyCall :=
  send_midi_internal s tr (control_change_midi channel controller value)

/-- MIDI message built by `rokot_ble_midi_program_change` (two bytes). -/
def program_change_midi (channel program : Nat) : List Nat :=
  [MIDI_PROGRAM_CHANGE ||| (channel &&& 0x0F), program &&& 0x7F]

/-- Embedding of `rokot_ble_midi_program_change`. -/
def rokot_ble_midi_program_change (s : BleMidiState) (tr : Transport)
    (channel program : Nat) : BleMidiState × Int × List NotifyCall :=
  send_midi_internal s tr (program_change_midi channel program)

/-- The biased 14-bit pitch-bend value: the C source computes
`(uint16_t)(value + 8192)` from the int16 argument, i.e. the sum reduced
modulo 2^16. -/
def pitch_bend_bend (value : Int) : Nat :=
  ((value + 8192) % 65536).toNat

/-- MIDI message built by `rokot_ble_midi_pitch_bend`: status byte, then
the low 7 bits of the biased value (LSB), then bits 7..13 (MSB). -/
def pitch_bend_midi (channel : Nat) (value : Int) : List Nat :=
  [MIDI_PITCH_BEND ||| (channel &&& 0x0F),
   pitch_bend_bend value &&& 0x7F,
   (pitch_bend_bend value >>> 7) &&& 0x7F]

/-- Embedding of `rokot_ble_midi_pitch_bend`. -/
def rokot_ble_midi_pitch_bend (s : BleMidiState) (tr : Transport)
    (channel : Nat) (value : Int) : BleMidiState × Int × List NotifyCall :=
  send_midi_internal s tr (pitch_bend_midi channel value)

/-- MIDI message built by `rokot_ble_midi_channel_pressure` (two bytes). -/
def channel_pressure_midi (channel pressure : Nat) : List Nat :=
  [MIDI_CHANNEL_PRESSURE ||| (channel &&& 0x0F), pressure &&& 0x7F]

/-- Embedding of `rokot_ble_midi_channel_pressure`. -/
def rokot_ble_midi_channel_pressure (s : BleMidiState) (tr : Transport)
    (channel pressure : Nat) : BleMidiState × Int × List NotifyCall :=
  send_midi_internal s tr (channel_pressure_midi channel pressure)

/-- Embedding of `rokot_ble_midi_send_raw`: length outside 1..3 returns
-1, otherwise behaves as `send_midi_internal`. The C `len` argument is
the length of the data list. -/
def rokot_ble_midi_send_raw (s : BleMidiState) (tr : Transport)
    (data : List Nat) : BleMidiState × Int × List NotifyCall :=
  if data.length = 0 || decide (3 < data.length) then (s, -1, [])
  else send_midi_internal s tr data

/-- Embedding of `rokot_ble_midi_set_battery_level`: clamp the uint8
level to at most 100, store it, and when the battery gate is enabled, a
connection exists and the transport can send now, notify the Battery
Level characteristic with the clamped single-byte payload. -/
def rokot_ble_midi_set_battery_level (s : BleMidiState) (tr : Transport)
    (level : Nat) : BleMidiState × List NotifyCall :=
  let lvl := if 100 < level then 100 else level
  ({ s with battery_level := lvl },
   if s.battery_notifications_enabled && (s.con_handle != HCI_CON_HANDLE_INVALID)
       && tr.canSendNow then
     [(ATT_CHARACTERISTIC_ORG_BLUETOOTH_CHARACTERISTIC_BATTERY_LEVEL_01_VALUE_HANDLE, [lvl])]
   else [])

/-- Embedding of `rokot_ble_midi_get_battery_level`. -/
def rokot_ble_midi_get_battery_level (s : BleMidiState) : Nat :=
  s.battery_level

/-- Embedding of the `adv_data` byte array from the source. -/
def adv_data : List Nat :=
  [0x02, 0x01, 0x06,
   0x11, 0x07,
   0x00, 0xC7, 0xC4, 0x4E, 0xE3, 0x6C, 0x51, 0xA7,
   0x33, 0x4B, 0xE8, 0xED, 0x5A, 0x0E, 0xB8, 0x03]

/-- Bluetooth assigned number for the Flags advertising data type. -/
def BLUETOOTH_DATA_TYPE_FLAGS : Nat := 0x01

/-- Bluetooth assigned number for the Complete List of 128-bit Service
Class UUIDs advertising data type. -/
def BLUETOOTH_DATA_TYPE_COMPLETE_LIST_OF_128_BIT_SERVICE_CLASS_UUIDS : Nat := 0x07

/-- Advertising flags used by the source (`APP_AD_FLAGS`). -/
def APP_AD_FLAGS : Nat := 0x06

/-- Modelled from the spec: the BLE-MIDI service UUID
`03B80E5A-EDE8-4B33-A751-6CE34EC4C700` written as its sixteen bytes in
big-endian (textual) order. Used to compare the source `adv_data` bytes
against the UUID the spec names. -/
def bleMidiServiceUuidBigEndian : List Nat :=
  [0x03, 0xB8, 0x0E, 0x5A, 0xED, 0xE8, 0x4B, 0x33,
   0xA7, 0x51, 0x6C, 0xE3, 0x4E, 0xC4, 0xC7, 0x00]

/-- States reachable from the initial state by the modelled events:
link-complete carrying a valid handle, connection-interval updates, ATT
writes arriving over an existing (valid-handle) connection, and
disconnect. -/
inductive Reachable : BleMidiState → Prop where
  | init : Reachable ble_midi_state_init
  | link (s : BleMidiState) (handle interval : Nat) : Reachable s →
      handle ≠ HCI_CON_HANDLE_INVALID →
      Reachable (hci_le_connection_complete s handle interval)
  | update (s : BleMidiState) (interval : Nat) : Reachable s →
      Reachable (hci_le_connection_update_complete s interval)
  | write (s : BleMidiState) (conn handle : Nat) (buffer : List Nat) :
      Reachable s → conn ≠ HCI_CON_HANDLE_INVALID →
      Reachable (att_write_callback s conn handle buffer).1
  | disc (s : BleMidiState) : Reachable s →
      Reachable (hci_disconnection_complete s)

/-- State with a registered receive callback, used as a concrete
environment for inbound-write examples. -/
def sRx : BleMidiState := { ble_midi_state_init with rx_callback := true }

/-- Concrete connected-but-not-ready state (valid handle, gates off). -/
def sConnected : BleMidiState := { ble_midi_state_init with con_handle := 0x40 }

/-- Concrete ready state (valid handle, MIDI gate on). -/
def sReady : BleMidiState :=
  { ble_midi_state_init with con_handle := 0x40, notifications_enabled := true }

/-- Transport that can send now and reports notify success. -/
def trOK : Transport := { canSendNow := true, notifyResult := 0 }

/-- Transport that cannot accept a notification right now. -/
def trBusy : Transport := { canSendNow := false, notifyResult := 0 }

/-- State after a link-complete event with handle 0x40 and interval 24. -/
def c4_s1 : BleMidiState := hci_le_connection_complete ble_midi_state_init 0x40 24

/-- State after a MIDI CCCD write enabling notifications. -/
def c4_s2 : BleMidiState :=
  (att_write_callback c4_s1 0x40
    ATT_CHARACTERISTIC_7772E5DB_3868_4112_A1A9_F2669D106BF3_01_CLIENT_CONFIGURATION_HANDLE
    [0x01, 0x00]).1

/-- State after a further MIDI CCCD write disabling notifications. -/
def c4_s3 : BleMidiState :=
  (att_write_callback c4_s2 0x40
    ATT_CHARACTERISTIC_7772E5DB_3868_4112_A1A9_F2669D106BF3_01_CLIENT_CONFIGURATION_HANDLE
    [0x00, 0x00]).1

/-- State after the subsequent disconnect event. -/
def c4_s4 : BleMidiState := hci_disconnection_complete c4_s3

/-- Claim C1 counterexample: for the length-1 MIDI message m = [0xC0],
encoding gives the 3-byte packet [0x80, 0x80, 0xC0], and delivering that
packet as a write to the MIDI characteristic value handle with a receive
callback registered invokes the callback zero times — not with the bytes
of m. The round-trip law decode(encode(m)) == m therefore fails for
length-1 messages. -/
theorem claim_C1_counterexample :
    sRx.rx_callback = true ∧
    encode_ble_midi_packet [0xC0] = [0x80, 0x80, 0xC0] ∧
    (att_write_callback sRx 0x40
      ATT_CHARACTERISTIC_7772E5DB_3868_4112_A1A9_F2669D106BF3_01_VALUE_HANDLE
      (encode_ble_midi_packet [0xC0])).2.1 = [] := by
  decide

/-- Claim C1 amended: encoding any MIDI byte list prepends exactly
[0x80, 0x80]; delivering the encoded packet to the MIDI characteristic
value handle with a receive callback registered invokes the callback
with exactly the bytes of m when m has length 3; for length-2 m the
callback receives (m[0], m[1], 0); for length-1 m no callback is
invoked. -/
theorem claim_C1_amended (s : BleMidiState) (conn b0 b1 b2 : Nat)
    (hcb : s.rx_callback = true) :
    (∀ m : List Nat, encode_ble_midi_packet m = 0x80 :: 0x80 :: m) ∧
    (att_write_callback s conn
      ATT_CHARACTERISTIC_7772E5DB_3868_4112_A1A9_F2669D106BF3_01_VALUE_HANDLE
      (encode_ble_midi_packet [b0, b1, b2])).2.1 = [(b0, b1, b2)] ∧
    (att_write_callback s conn
      ATT_CHARACTERISTIC_7772E5DB_3868_4112_A1A9_F2669D106BF3_01_VALUE_HANDLE
      (encode_ble_midi_packet [b0, b1])).2.1 = [(b0, b1, 0)] ∧
    (att_write_callback s conn
      ATT_CHARACTERISTIC_7772E5DB_3868_4112_A1A9_F2669D106BF3_01_VALUE_HANDLE
      (encode_ble_midi_packet [b0])).2.1 = [] := by
  refine ⟨fun m => rfl, ?_, ?_, ?_⟩ <;>
    simp [att_write_callback, encode_ble_midi_packet, hcb,
      ATT_CHARACTERISTIC_7772E5DB_3868_4112_A1A9_F2669D106BF3_01_VALUE_HANDLE,
      ATT_CHARACTERISTIC_7772E5DB_3868_4112_A1A9_F2669D106BF3_01_CLIENT_CONFIGURATION_HANDLE,
      ATT_CHARACTERISTIC_ORG_BLUETOOTH_CHARACTERISTIC_BATTERY_LEVEL_01_CLIENT_CONFIGURATION_HANDLE]

/-- Claim C1 witness: the amended claim instantiated at the concrete
state sRx and the Note On message bytes 0x90, 0x3C, 0x64. -/
theorem claim_C1_witness :
    (att_write_callback sRx 0x40
      ATT_CHARACTERISTIC_7772E5DB_3868_4112_A1A9_F2669D106BF3_01_VALUE_HANDLE
      (encode_ble_midi_packet [0x90, 0x3C, 0x64])).2.1 = [(0x90, 0x3C, 0x64)] ∧
    (att_write_callback sRx 0x40
      ATT_CHARACTERISTIC_7772E5DB_3868_4112_A1A9_F2669D106BF3_01_VALUE_HANDLE
      (encode_ble_midi_packet [0x90, 0x3C])).2.1 = [(0x90, 0x3C, 0)] ∧
    (att_write_callback sRx 0x40
      ATT_CHARACTERISTIC_7772E5DB_3868_4112_A1A9_F2669D106BF3_01_VALUE_HANDLE
      (encode_ble_midi_packet [0x90])).2.1 = [] :=
  ⟨(claim_C1_amended sRx 0x40 0x90 0x3C 0x64 rfl).2.1,
   (claim_C1_amended sRx 0x40 0x90 0x3C 0x64 rfl).2.2.1,
   (claim_C1_amended sRx 0x40 0x90 0x3C 0x64 rfl).2.2.2⟩

/-- Claim C2: for every inbound write of a buffer b to the MIDI
characteristic value handle with a receive callback registered, a buffer
of at least 5 bytes invokes the callback once with (b[2], b[3], b[4]),
a buffer of exactly 4 bytes invokes it once with (b[2], b[3], 0), a
buffer of 3 or fewer bytes invokes nothing, and in every case the write
reports success (ATT result 0) and leaves the state unchanged. -/
theorem claim_C2 (s : BleMidiState) (conn : Nat) (b : List Nat)
    (hcb : s.rx_callback = true) :
    (5 ≤ b.length →
      (att_write_callback s conn
        ATT_CHARACTERISTIC_7772E5DB_3868_4112_A1A9_F2669D106BF3_01_VALUE_HANDLE
        b).2.1 = [(b.getD 2 0, b.getD 3 0, b.getD 4 0)]) ∧
    (b.length = 4 →
      (att_write_callback s conn
        ATT_CHARACTERISTIC_7772E5DB_3868_4112_A1A9_F2669D106BF3_01_VALUE_HANDLE
        b).2.1 = [(b.getD 2 0, b.getD 3 0, 0)]) ∧
    (b.length ≤ 3 →
      (att_write_callback s conn
        ATT_CHARACTERISTIC_7772E5DB_3868_4112_A1A9_F2669D106BF3_01_VALUE_HANDLE
        b).2.1 = []) ∧
    (att_write_callback s conn
      ATT_CHARACTERISTIC_7772E5DB_3868_4112_A1A9_F2669D106BF3_01_VALUE_HANDLE
      b).2.2 = 0 ∧
    (att_write_callback s conn
      ATT_CHARACTERISTIC_7772E5DB_3868_4112_A1A9_F2669D106BF3_01_VALUE_HANDLE
      b).1 = s := by
  refine ⟨fun h5 => ?_, fun h4 => ?_, fun h3 => ?_, ?_, ?_⟩ <;>
    simp only [att_write_callback,
      ATT_CHARACTERISTIC_7772E5DB_3868_4112_A1A9_F2669D106BF3_01_VALUE_HANDLE,
      ATT_CHARACTERISTIC_7772E5DB_3868_4112_A1A9_F2669D106BF3_01_CLIENT_CONFIGURATION_HANDLE,
      ATT_CHARACTERISTIC_ORG_BLUETOOTH_CHARACTERISTIC_BATTERY_LEVEL_01_CLIENT_CONFIGURATION_HANDLE] <;>
    norm_num [hcb] <;>
    split_ifs <;> simp_all <;> omega

/-- Claim C2 witness: the 5-byte write [0x80, 0x80, 0x90, 0x3C, 0x64]
invokes the callback with (0x90, 0x3C, 0x64); the 2-byte write
[0x80, 0x80] invokes nothing and still reports success. -/
theorem claim_C2_witness :
    (att_write_callback sRx 0x40
      ATT_CHARACTERISTIC_7772E5DB_3868_4112_A1A9_F2669D106BF3_01_VALUE_HANDLE
      [0x80, 0x80, 0x90, 0x3C, 0x64]).2.1 = [(0x90, 0x3C, 0x64)] ∧
    (att_write_callback sRx 0x40
      ATT_CHARACTERISTIC_7772E5DB_3868_4112_A1A9_F2669D106BF3_01_VALUE_HANDLE
      [0x80, 0x80]).2.1 = [] ∧
    (att_write_callback sRx 0x40
      ATT_CHARACTERISTIC_7772E5DB_3868_4112_A1A9_F2669D106BF3_01_VALUE_HANDLE
      [0x80, 0x80]).2.2 = 0 :=
  ⟨(claim_C2 sRx 0x40 [0x80, 0x80, 0x90, 0x3C, 0x64] rfl).1 (by decide),
   (claim_C2 sRx 0x40 [0x80, 0x80] rfl).2.2.1 (by decide),
   (claim_C2 sRx 0x40 [0x80, 0x80] rfl).2.2.2.1⟩

/-- Concrete unreachable state with the MIDI gate enabled but no
connection, exhibiting the readiness-check divergence of claim C3. -/
def c3_bad : BleMidiState := { ble_midi_state_init with notifications_enabled := true }

/-- Claim C3 counterexample: in the state with con_handle equal to
HCI_CON_HANDLE_INVALID and notifications_enabled true,
rokot_ble_midi_get_state returns ROKOT_BLE_MIDI_READY — it does not
treat the enabled gate as disabled, contradicting the claim that no
entry point reports readiness without a connection. -/
theorem claim_C3_counterexample :
    c3_bad.con_handle = HCI_CON_HANDLE_INVALID ∧
    c3_bad.notifications_enabled = true ∧
    rokot_ble_midi_get_state c3_bad = ROKOT_BLE_MIDI_READY := by
  decide

/-- Claim C3 amended: in every state whose connection handle is
HCI_CON_HANDLE_INVALID, rokot_ble_midi_is_ready returns false and every
send returns the not-ready code -1 with no notification call and no
state change, even when notifications_enabled is true; but
rokot_ble_midi_get_state does not consult the connection handle in its
first branch and returns ROKOT_BLE_MIDI_READY whenever
notifications_enabled is true (such states are unreachable under the
modelled events). -/
theorem claim_C3_amended (s : BleMidiState) (tr : Transport) (midi : List Nat)
    (hcon : s.con_handle = HCI_CON_HANDLE_INVALID) :
    rokot_ble_midi_is_ready s = false ∧
    send_midi_internal s tr midi = (s, -1, []) ∧
    (s.notifications_enabled = true →
      rokot_ble_midi_get_state s = ROKOT_BLE_MIDI_READY) := by
  refine ⟨?_, ?_, fun hn => ?_⟩
  · simp [rokot_ble_midi_is_ready, hcon]
  · simp [send_midi_internal, hcon]
  · simp [rokot_ble_midi_get_state, hn]

/-- Claim C3 witness: the amended claim instantiated at the concrete
gate-enabled disconnected state c3_bad. -/
theorem claim_C3_witness :
    rokot_ble_midi_is_ready c3_bad = false ∧
    send_midi_internal c3_bad trOK [0x90, 0x3C, 0x64] = (c3_bad, -1, []) ∧
    rokot_ble_midi_get_state c3_bad = ROKOT_BLE_MIDI_READY :=
  ⟨(claim_C3_amended c3_bad trOK [0x90, 0x3C, 0x64] rfl).1,
   (claim_C3_amended c3_bad trOK [0x90, 0x3C, 0x64] rfl).2.1,
   (claim_C3_amended c3_bad trOK [0x90, 0x3C, 0x64] rfl).2.2 rfl⟩

/-- Claim C4: from the disconnected initial state, link-complete, then a
MIDI CCCD write with the notification-enable value, then a CCCD write
with a disable value, then disconnect drive rokot_ble_midi_get_state
through CONNECTED, READY, CONNECTED, DISCONNECTED in order; and the
disconnect event, in the single step hci_disconnection_complete, clears
the connection handle, both notification gates, and the recorded
connection interval of any state. -/
theorem claim_C4 :
    rokot_ble_midi_get_state ble_midi_state_init = ROKOT_BLE_MIDI_DISCONNECTED ∧
    rokot_ble_midi_get_state c4_s1 = ROKOT_BLE_MIDI_CONNECTED ∧
    rokot_ble_midi_get_state c4_s2 = ROKOT_BLE_MIDI_READY ∧
    rokot_ble_midi_get_state c4_s3 = ROKOT_BLE_MIDI_CONNECTED ∧
    rokot_ble_midi_get_state c4_s4 = ROKOT_BLE_MIDI_DISCONNECTED ∧
    c4_s1.connection_interval = 24 ∧
    (∀ s : BleMidiState,
      (hci_disconnection_complete s).con_handle = HCI_CON_HANDLE_INVALID ∧
      (hci_disconnection_complete s).notifications_enabled = false ∧
      (hci_disconnection_complete s).battery_notifications_enabled = false ∧
      (hci_disconnection_complete s).connection_interval = 0) := by
  refine ⟨by decide, by decide, by decide, by decide, by decide, by decide, ?_⟩
  intro s
  exact ⟨rfl, rfl, rfl, rfl⟩

/-- Claim C5: in any state where a connection exists but the MIDI
notification gate is disabled, each of the six typed senders and
rokot_ble_midi_send_raw with a valid 1-3 byte payload returns the
not-ready code -1, makes no notification call, and leaves the state
unchanged. -/
theorem claim_C5 (s : BleMidiState) (tr : Transport)
    (channel note velocity controller value program pressure : Nat)
    (bendValue : Int) (data : List Nat)
    (hcon : s.con_handle ≠ HCI_CON_HANDLE_INVALID)
    (hgate : s.notifications_enabled = false)
    (hlen1 : 1 ≤ data.length) (hlen3 : data.length ≤ 3) :
    rokot_ble_midi_note_on s tr channel note velocity = (s, -1, []) ∧
    rokot_ble_midi_note_off s tr channel note = (s, -1, []) ∧
    rokot_ble_midi_control_change s tr channel controller value = (s, -1, []) ∧
    rokot_ble_midi_program_change s tr channel program = (s, -1, []) ∧
    rokot_ble_midi_pitch_bend s tr channel bendValue = (s, -1, []) ∧
    rokot_ble_midi_channel_pressure s tr channel pressure = (s, -1, []) ∧
    rokot_ble_midi_send_raw s tr data = (s, -1, []) := by
  have hsend : ∀ midi : List Nat, send_midi_internal s tr midi = (s, -1, []) := by
    intro midi
    simp [send_midi_internal, hgate]
  refine ⟨hsend _, hsend _, hsend _, hsend _, hsend _, hsend _, ?_⟩
  rw [rokot_ble_midi_send_raw]
  split
  · rfl
  · exact hsend data

/-- Claim C5 witness: the not-ready behaviour instantiated at the
concrete connected-not-ready state sConnected with an idle transport. -/
theorem claim_C5_witness :
    rokot_ble_midi_note_on sConnected trOK 0 60 100 = (sConnected, -1, []) ∧
    rokot_ble_midi_pitch_bend sConnected trOK 0 0 = (sConnected, -1, []) ∧
    rokot_ble_midi_send_raw sConnected trOK [0x90, 0x3C, 0x64] = (sConnected, -1, []) :=
  ⟨(claim_C5 sConnected trOK 0 60 100 0 0 0 0 0 [0x90, 0x3C, 0x64]
      (by decide) rfl (by decide) (by decide)).1,
   (claim_C5 sConnected trOK 0 60 100 0 0 0 0 0 [0x90, 0x3C, 0x64]
      (by decide) rfl (by decide) (by decide)).2.2.2.2.1,
   (claim_C5 sConnected trOK 0 60 100 0 0 0 0 0 [0x90, 0x3C, 0x64]
      (by decide) rfl (by decide) (by decide)).2.2.2.2.2.2⟩

/-- Concrete state with the Battery notification gate enabled and a
connection present, used to probe claim C6. -/
def c6_state : BleMidiState :=
  { ble_midi_state_init with con_handle := 0x40, battery_notifications_enabled := true }

/-- Claim C6 counterexample: with the Battery gate enabled and a
connection present but the transport unable to send right now,
rokot_ble_midi_set_battery_level 150 stores 100 yet makes zero
notification calls — not exactly one, as the claim requires from the
gate-and-connection condition alone. -/
theorem claim_C6_counterexample :
    c6_state.battery_notifications_enabled = true ∧
    c6_state.con_handle ≠ HCI_CON_HANDLE_INVALID ∧
    (rokot_ble_midi_set_battery_level c6_state trBusy 150).1.battery_level = 100 ∧
    (rokot_ble_midi_set_battery_level c6_state trBusy 150).2 = [] := by
  decide

/-- Claim C6 amended: for every uint8 input level the stored battery
level is min(level, 100) and rokot_ble_midi_get_battery_level returns
that clamped value afterwards; if the Battery notification gate is
enabled, a connection exists, and the transport can accept a
notification now, the call makes exactly one notification call whose
payload is the single clamped byte; if the transport cannot send now, it
makes none. -/
theorem claim_C6_amended (s : BleMidiState) (tr : Transport) (level : Nat)
    (hlev : level < 256) :
    (rokot_ble_midi_set_battery_level s tr level).1.battery_level = min level 100 ∧
    rokot_ble_midi_get_battery_level
      (rokot_ble_midi_set_battery_level s tr level).1 = min level 100 ∧
    (s.battery_notifications_enabled = true →
      s.con_handle ≠ HCI_CON_HANDLE_INVALID →
      tr.canSendNow = true →
      (rokot_ble_midi_set_battery_level s tr level).2 =
        [(ATT_CHARACTERISTIC_ORG_BLUETOOTH_CHARACTERISTIC_BATTERY_LEVEL_01_VALUE_HANDLE,
          [min level 100])]) ∧
    (tr.canSendNow = false →
      (rokot_ble_midi_set_battery_level s tr level).2 = []) := by
  have hmin : (if 100 < level then 100 else level) = min level 100 := by
    split <;> omega
  refine ⟨?_, ?_, fun h1 h2 h3 => ?_, fun h4 => ?_⟩
  · simp [rokot_ble_midi_set_battery_level, hmin]
  · simp [rokot_ble_midi_set_battery_level, rokot_ble_midi_get_battery_level, hmin]
  · simp [rokot_ble_midi_set_battery_level, hmin, h1, h2, h3]
  · simp [rokot_ble_midi_set_battery_level, h4]

/-- Claim C6 witness: the amended claim instantiated at level 150 in the
gate-enabled connected state with a transport able to send: the stored
level is 100 and exactly one notification call with payload [100] is
made. -/
theorem claim_C6_witness :
    (rokot_ble_midi_set_battery_level c6_state trOK 150).1.battery_level = min 150 100 ∧
    (rokot_ble_midi_set_battery_level c6_state trOK 150).2 =
      [(ATT_CHARACTERISTIC_ORG_BLUETOOTH_CHARACTERISTIC_BATTERY_LEVEL_01_VALUE_HANDLE,
        [min 150 100])] :=
  ⟨(claim_C6_amended c6_state trOK 150 (by decide)).1,
   (claim_C6_amended c6_state trOK 150 (by decide)).2.2.1 rfl (by decide) rfl⟩

/-- Claim C7 counterexample: the advertising payload is 21 bytes long,
not 20 — a 3-byte flags record plus an 18-byte UUID record (one length
byte, one type byte, sixteen UUID bytes) totals 21. -/
theorem claim_C7_counterexample :
    adv_data.length = 21 ∧ adv_data.length ≠ 20 := by
  decide

/-- Claim C7 amended: the advertising payload is the 3-byte flags record
followed by the 18-byte complete-128-bit-service-UUID record (length
byte 0x11, type byte, then the sixteen bytes of the BLE-MIDI service
UUID 03B80E5A-EDE8-4B33-A751-6CE34EC4C700 in reversed, little-endian
order), for 21 bytes in total. -/
theorem claim_C7_amended :
    adv_data = [0x02, BLUETOOTH_DATA_TYPE_FLAGS, APP_AD_FLAGS] ++
      0x11 :: BLUETOOTH_DATA_TYPE_COMPLETE_LIST_OF_128_BIT_SERVICE_CLASS_UUIDS ::
        bleMidiServiceUuidBigEndian.reverse ∧
    adv_data.length = 21 := by
  decide

/-- Claim C8: rokot_ble_midi_pitch_bend biases its signed 14-bit input
by +8192 and splits the result into 7-bit LSB and MSB data bytes; in
particular input -8192 yields data bytes (0, 0), input 0 yields
(0x00, 0x40), and input 8191 yields (0x7F, 0x7F). -/
theorem claim_C8 (channel : Nat) (v : Int) (h1 : -8192 ≤ v) (h2 : v ≤ 8191) :
    pitch_bend_midi channel v =
      [MIDI_PITCH_BEND ||| (channel &&& 0x0F),
       (v + 8192).toNat % 128, (v + 8192).toNat / 128] ∧
    pitch_bend_midi channel (-8192) =
      [MIDI_PITCH_BEND ||| (channel &&& 0x0F), 0x00, 0x00] ∧
    pitch_bend_midi channel 0 =
      [MIDI_PITCH_BEND ||| (channel &&& 0x0F), 0x00, 0x40] ∧
    pitch_bend_midi channel 8191 =
      [MIDI_PITCH_BEND ||| (channel &&& 0x0F), 0x7F, 0x7F] := by
  have hand : ∀ n : Nat, n &&& 127 = n % 128 := fun n => by
    simpa using Nat.and_pow_two_sub_one_eq_mod n 7
  have key : ∀ w : Int, -8192 ≤ w → w ≤ 8191 →
      pitch_bend_midi channel w =
        [MIDI_PITCH_BEND ||| (channel &&& 0x0F),
         (w + 8192).toNat % 128, (w + 8192).toNat / 128] := by
    intro w hw1 hw2
    have hnn : (0 : Int) ≤ w + 8192 := by omega
    have hlt : w + 8192 < 65536 := by omega
    have hbend : pitch_bend_bend w = (w + 8192).toNat := by
      unfold pitch_bend_bend
      rw [Int.emod_eq_of_lt hnn hlt]
    have hsmall : (w + 8192).toNat < 16384 := by omega
    have hdiv : (w + 8192).toNat / 128 < 128 := Nat.div_lt_of_lt_mul (by omega)
    unfold pitch_bend_midi
    rw [hbend]
    simp only [List.cons.injEq, and_true, true_and]
    refine ⟨hand _, ?_⟩
    rw [Nat.shiftRight_eq_div_pow, hand]
    norm_num [Nat.mod_eq_of_lt hdiv]
  refine ⟨key v h1 h2, ?_, ?_, ?_⟩
  · have := key (-8192) (by norm_num) (by norm_num)
    simpa using this
  · have := key 0 (by norm_num) (by norm_num)
    simpa using this
  · have := key 8191 (by norm_num) (by norm_num)
    simpa using this

/-- Claim C8 witness: the splitting law instantiated at channel 0 and
pitch-bend input 0, giving the center bytes (0x00, 0x40). -/
theorem claim_C8_witness :
    pitch_bend_midi 0 0 = [MIDI_PITCH_BEND ||| (0 &&& 0x0F), 0x00, 0x40] :=
  (claim_C8 0 0 (by norm_num) (by norm_num)).2.2.1

/-- Claim C9 counterexample: rokot_ble_midi_send_raw with a 4-byte
payload in a READY state returns -1, and rokot_ble_midi_note_on in a
connected-but-not-ready state also returns -1 — the invalid-input
outcome and the not-ready outcome map to the same return code, so the
outcomes are not mutually distinguishable. -/
theorem claim_C9_counterexample :
    rokot_ble_midi_is_ready sReady = true ∧
    (rokot_ble_midi_send_raw sReady trOK [0x90, 0x3C, 0x64, 0x00]).2.1 = -1 ∧
    rokot_ble_midi_is_ready sConnected = false ∧
    (rokot_ble_midi_note_on sConnected trOK 0 60 100).2.1 = -1 ∧
    (rokot_ble_midi_send_raw sReady trOK [0x90, 0x3C, 0x64, 0x00]).2.1 =
      (rokot_ble_midi_note_on sConnected trOK 0 60 100).2.1 := by
  decide

/-- Claim C9 amended: the senders return four codes — 0 on success, -1
when not READY, -2 when the transport cannot accept a notification this
instant, -3 when the transport notify call fails — and
rokot_ble_midi_send_raw with a length outside 1-3 returns -1, the same
code as a send attempted while not READY, so invalid input is not
distinguishable from not-ready by the return code. -/
theorem claim_C9_amended (s : BleMidiState) (tr : Transport) (data : List Nat) :
    (data.length = 0 ∨ 3 < data.length →
      (rokot_ble_midi_send_raw s tr data).2.1 = -1) ∧
    (rokot_ble_midi_is_ready s = false →
      (rokot_ble_midi_send_raw s tr data).2.1 = -1) ∧
    (rokot_ble_midi_is_ready s = true → tr.canSendNow = false →
      1 ≤ data.length → data.length ≤ 3 →
      (rokot_ble_midi_send_raw s tr data).2.1 = -2) ∧
    (rokot_ble_midi_is_ready s = true → tr.canSendNow = true →
      tr.notifyResult = 0 → 1 ≤ data.length → data.length ≤ 3 →
      (rokot_ble_midi_send_raw s tr data).2.1 = 0) ∧
    (rokot_ble_midi_is_ready s = true → tr.canSendNow = true →
      tr.notifyResult ≠ 0 → 1 ≤ data.length → data.length ≤ 3 →
      (rokot_ble_midi_send_raw s tr data).2.1 = -3) := by
  have hready : ∀ h : rokot_ble_midi_is_ready s = true,
      (!s.notifications_enabled || (s.con_handle == HCI_CON_HANDLE_INVALID)) = false := by
    intro h
    simp only [rokot_ble_midi_is_ready, Bool.and_eq_true, bne_iff_ne] at h
    simp [h.1, h.2]
  refine ⟨fun hbad => ?_, fun hnr => ?_, fun hr hbusy hl1 hl3 => ?_,
    fun hr hcan hres hl1 hl3 => ?_, fun hr hcan hres hl1 hl3 => ?_⟩
  · rw [rokot_ble_midi_send_raw]
    have : (data.length = 0 || decide (3 < data.length)) = true := by
      rcases hbad with hb | hb <;> simp [hb]
    rw [if_pos this]
  · rw [rokot_ble_midi_send_raw]
    split
    · rfl
    · rw [send_midi_internal]
      have hcond : (!s.notifications_enabled || (s.con_handle == HCI_CON_HANDLE_INVALID)) = true := by
        cases hn : s.notifications_enabled
        · simp
        · rw [rokot_ble_midi_is_ready, hn] at hnr
          simp at hnr
          simp [hnr]
      rw [if_pos hcond]
  · rw [rokot_ble_midi_send_raw]
    have h0 : ¬ data.length = 0 := by omega
    have h3 : ¬ 3 < data.length := by omega
    have hlen : (decide (data.length = 0) || decide (3 < data.length)) = false := by
      rw [decide_eq_false h0, decide_eq_false h3]
      rfl
    rw [if_neg (by rw [hlen]; decide), send_midi_internal,
      if_neg (by rw [hready hr]; decide), if_pos (by simp [hbusy])]
  · rw [rokot_ble_midi_send_raw]
    have h0 : ¬ data.length = 0 := by omega
    have h3 : ¬ 3 < data.length := by omega
    have hlen : (decide (data.length = 0) || decide (3 < data.length)) = false := by
      rw [decide_eq_false h0, decide_eq_false h3]
      rfl
    rw [if_neg (by rw [hlen]; decide), send_midi_internal,
      if_neg (by rw [hready hr]; decide), if_neg (by rw [hcan]; decide)]
    simp [hres]
  · rw [rokot_ble_midi_send_raw]
    have h0 : ¬ data.length = 0 := by omega
    have h3 : ¬ 3 < data.length := by omega
    have hlen : (decide (data.length = 0) || decide (3 < data.length)) = false := by
      rw [decide_eq_false h0, decide_eq_false h3]
      rfl
    rw [if_neg (by rw [hlen]; decide), send_midi_internal,
      if_neg (by rw [hready hr]; decide), if_neg (by rw [hcan]; decide)]
    simp [hres]

/-- Claim C9 witness: the amended outcome map instantiated concretely —
a 4-byte raw send while READY gives -1, a valid send while not ready
gives -1, a valid send while READY with a busy transport gives -2, and a
valid send while READY with a free transport gives 0. -/
theorem claim_C9_witness :
    (rokot_ble_midi_send_raw sReady trOK [0x90, 0x3C, 0x64, 0x00]).2.1 = -1 ∧
    (rokot_ble_midi_send_raw sConnected trOK [0x90, 0x3C, 0x64]).2.1 = -1 ∧
    (rokot_ble_midi_send_raw sReady trBusy [0x90, 0x3C, 0x64]).2.1 = -2 ∧
    (rokot_ble_midi_send_raw sReady trOK [0x90, 0x3C, 0x64]).2.1 = 0 :=
  ⟨(claim_C9_amended sReady trOK [0x90, 0x3C, 0x64, 0x00]).1 (by decide),
   (claim_C9_amended sConnected trOK [0x90, 0x3C, 0x64]).2.1 (by decide),
   (claim_C9_amended sReady trBusy [0x90, 0x3C, 0x64]).2.2.1 (by decide) rfl
     (by decide) (by decide),
   (claim_C9_amended sReady trOK [0x90, 0x3C, 0x64]).2.2.2.1 (by decide) rfl rfl
     (by decide) (by decide)⟩

/-- Helper invariant for claim C10: on every reachable state, an enabled
notification gate (MIDI or Battery) implies a valid connection handle. -/
theorem reachable_gate_con_handle (s : BleMidiState) (hs : Reachable s) :
    s.notifications_enabled = true ∨ s.battery_notifications_enabled = true →
    s.con_handle ≠ HCI_CON_HANDLE_INVALID := by
  induction hs with
  | init =>
      intro h
      rcases h with h | h <;> simp [ble_midi_state_init] at h
  | link s handle interval hr hvalid ih =>
      intro h
      simpa [hci_le_connection_complete] using hvalid
  | update s interval hr ih =>
      intro h
      simp only [hci_le_connection_update_complete] at h ⊢
      exact ih h
  | write s conn handle buffer hr hvalid ih =>
      intro h
      unfold att_write_callback at h ⊢
      by_cases h1 : handle = ATT_CHARACTERISTIC_ORG_BLUETOOTH_CHARACTERISTIC_BATTERY_LEVEL_01_CLIENT_CONFIGURATION_HANDLE
      · rw [if_pos h1] at h ⊢
        exact hvalid
      · rw [if_neg h1] at h ⊢
        by_cases h2 : handle = ATT_CHARACTERISTIC_7772E5DB_3868_4112_A1A9_F2669D106BF3_01_CLIENT_CONFIGURATION_HANDLE
        · rw [if_pos h2] at h ⊢
          exact hvalid
        · rw [if_neg h2] at h ⊢
          by_cases h3 : handle = ATT_CHARACTERISTIC_7772E5DB_3868_4112_A1A9_F2669D106BF3_01_VALUE_HANDLE
          · rw [if_pos h3] at h ⊢
            exact ih h
          · rw [if_neg h3] at h ⊢
            exact ih h
  | disc s hr ih =>
      intro h
      simp [hci_disconnection_complete] at h

/-- Claim C10: on every state reachable from the initial state via the
modelled events, an enabled notification gate implies the connection
handle is present; consequently rokot_ble_midi_get_state returns READY
exactly when rokot_ble_midi_is_ready returns true. -/
theorem claim_C10 (s : BleMidiState) (hs : Reachable s) :
    (s.notifications_enabled = true ∨ s.battery_notifications_enabled = true →
      s.con_handle ≠ HCI_CON_HANDLE_INVALID) ∧
    (rokot_ble_midi_get_state s = ROKOT_BLE_MIDI_READY ↔
      rokot_ble_midi_is_ready s = true) := by
  refine ⟨reachable_gate_con_handle s hs, ?_⟩
  by_cases hn : s.notifications_enabled
  · have hch := reachable_gate_con_handle s hs (Or.inl hn)
    simp [rokot_ble_midi_get_state, rokot_ble_midi_is_ready, hn, hch]
  · simp only [Bool.not_eq_true] at hn
    constructor
    · intro hgs
      rw [rokot_ble_midi_get_state] at hgs
      simp only [hn, Bool.false_eq_true, if_false] at hgs
      split at hgs <;> exact absurd hgs (by decide)
    · intro hir
      rw [rokot_ble_midi_is_ready] at hir
      simp [hn] at hir

/-- Claim C10 witness: the equivalence applied to the reachable READY
state obtained by link-complete with handle 0x40 followed by a MIDI CCCD
notification-enable write. -/
theorem claim_C10_witness :
    rokot_ble_midi_get_state c4_s2 = ROKOT_BLE_MIDI_READY ↔
      rokot_ble_midi_is_ready c4_s2 = true :=
  (claim_C10 c4_s2
    (Reachable.write c4_s1 0x40
      ATT_CHARACTERISTIC_7772E5DB_3868_4112_A1A9_F2669D106BF3_01_CLIENT_CONFIGURATION_HANDLE
      [0x01, 0x00]
      (Reachable.link ble_midi_state_init 0x40 24 Reachable.init (by decide))
      (by decide))).2
